import Mathlib

/-!
Verification of the NSKeyedArchiver plist decoder
(`plistrc/decoders.py`, class `NSKeyedArchiverDecoder`).

The decoder is embedded shallowly: Python values become the inductive
type `Value`, Python exceptions become the error type `PyErr`, and the
mutable `parent_objects` list is threaded explicitly, so every decoding
function returns `Except PyErr (result × parents)`.  Python recursion is
bounded by an explicit fuel parameter; exhausting it models Python's
`RecursionError` (the source can recurse without bound, e.g. through an
`NS.keys` entry that references its own dictionary).

Modelling notes, to be read next to the source:
* Floating-point payloads are modelled by `Value.real` carrying an
  integer: the decoder never computes with floats, it only carries them,
  tests truthiness and compares `$version`, and every such comparison in
  the source involves integral values.
* Error message strings follow the source loosely (same wording, without
  Python `repr`/format details); no theorem depends on exact messages.
* A single-entry `CF$UID` mapping whose payload is not an integer is
  modelled as not-a-UID; the source would return the payload and crash
  later when using it as a list index.  No claim touches this corner.
* Handler bodies are only reachable with a mapping argument (dispatch
  requires `$class`), so their non-mapping arms model the
  `AttributeError` that `plist_property.get` raises on non-mappings.
-/

/-- A plist value as produced by `plistlib` and consumed by the decoder. -/
inductive Value where
  | null
  | bool (b : Bool)
  | int (i : Int)
  | real (r : Int)
  | str (s : String)
  | data (bs : List Nat)
  | uid (n : Nat)
  | array (xs : List Value)
  | dict (es : List (String × Value))

/-- Python truthiness (`if not x`) for each value shape.  `plistlib.UID`
defines no `__bool__`/`__len__`, so UID leaves are always truthy. -/
def Value.truthy : Value → Bool
  | .null => false
  | .bool b => b
  | .int i => i != 0
  | .real r => r != 0
  | .str s => !s.isEmpty
  | .data bs => !bs.isEmpty
  | .uid _ => true
  | .array xs => !xs.isEmpty
  | .dict es => !es.isEmpty

/-- `isinstance(x, str)`. -/
def Value.isStr : Value → Bool
  | .str _ => true
  | _ => false

/-- Text used when interpolating a value into an error message. -/
def msgStr : Value → String
  | .str s => s
  | _ => "<value>"

/-- `d.get(key)`: first entry with the given key (Python dict keys are
unique, so first and only). -/
def dictGet : List (String × Value) → String → Option Value
  | [], _ => none
  | (k, v) :: rest, key => if k = key then some v else dictGet rest key

/-- `key in d`. -/
def dictHasKey (es : List (String × Value)) (key : String) : Bool :=
  (dictGet es key).isSome

/-- `d[key] = v`: replace the existing entry in place, else append. -/
def dictSet : List (String × Value) → String → Value → List (String × Value)
  | [], key, v => [(key, v)]
  | (k, w) :: rest, key, v =>
      if k = key then (k, v) :: rest else (k, w) :: dictSet rest key v

/-- Python exceptions the decoder can surface.  `runtimeError` is the
single decode-error kind documented in every docstring; the others are
built-in exceptions that escape that contract. -/
inductive PyErr where
  | runtimeError (msg : String)
  | indexError
  | typeError
  | attributeError
  | keyError
  | recursionError

/-- `_GetPlistUID`: a `plistlib.UID` leaf, or a single-entry mapping
whose only key is `CF$UID` with an integer payload. -/
def getPlistUID : Value → Option Int
  | .uid n => some (n : Int)
  | .dict [(k, .int i)] => if k = "CF$UID" then some i else none
  | _ => none

/-- Python subscription `v[i]` with an integer index: sequences support
negative indexing from the end, mappings raise `KeyError` for an absent
integer key, everything else raises `TypeError`. -/
def pyIndex (v : Value) (i : Int) : Except PyErr Value :=
  match v with
  | .array xs =>
      let n : Int := xs.length
      if 0 ≤ i ∧ i < n then .ok (xs.getD i.toNat .null)
      else if -n ≤ i ∧ i < 0 then .ok (xs.getD (i + n).toNat .null)
      else .error .indexError
  | .str s =>
      let n : Int := s.length
      if 0 ≤ i ∧ i < n then .ok (.str (String.mk [s.data.getD i.toNat " ".front]))
      else if -n ≤ i ∧ i < 0 then
        .ok (.str (String.mk [s.data.getD (i + n).toNat " ".front]))
      else .error .indexError
  | .data bs =>
      let n : Int := bs.length
      if 0 ≤ i ∧ i < n then .ok (.int (bs.getD i.toNat 0))
      else if -n ≤ i ∧ i < 0 then .ok (.int (bs.getD (i + n).toNat 0))
      else .error .indexError
  | .dict _ => .error .keyError
  | _ => .error .typeError

/-- Python iteration `for x in v`: lists yield elements, strings yield
one-character strings, byte strings yield integers, mappings yield their
keys; other values raise `TypeError`. -/
def pyIter : Value → Except PyErr (List Value)
  | .array xs => .ok xs
  | .str s => .ok (s.data.map (fun c => .str (String.mk [c])))
  | .data bs => .ok (bs.map (fun b => .int (b : Int)))
  | .dict es => .ok (es.map (fun e => .str e.1))
  | _ => .error .typeError

/-- Python `len(v)`. -/
def pyLen : Value → Except PyErr Nat
  | .array xs => .ok xs.length
  | .str s => .ok s.length
  | .data bs => .ok bs.length
  | .dict es => .ok es.length
  | _ => .error .typeError

/-- `parent_objects.pop(-1)` on the ancestors stack. -/
def pyPop (l : List Int) : Except PyErr (List Int) :=
  if l.isEmpty then .error .indexError else .ok l.dropLast

/-- Python `==` against a string literal: only a text value can equal a
string. -/
def pyEqStr : Value → String → Bool
  | .str s, t => s == t
  | _, _ => false

/-- Python `==` against an integer literal: booleans and integral floats
compare by numeric value. -/
def pyEqInt : Value → Int → Bool
  | .int n, m => n == m
  | .bool b, m => (if b then (1 : Int) else 0) == m
  | .real r, m => r == m
  | _, _ => false

/-- The per-class handlers reachable through `_CALLBACKS` (method names
collapsed to tags; `NSArray` and `NSSet` share one handler, `NSObject`
maps to the generic composite handler). -/
inductive NSHandler where
  | nsArray
  | nsData
  | nsDate
  | nsDictionary
  | nsHashTable
  | nsNull
  | composite
  | nsString
  | nsURL
  | nsUUID

/-- The `_CALLBACKS` table. -/
def callbacks (name : String) : Option NSHandler :=
  if name = "NSArray" then some .nsArray
  else if name = "NSData" then some .nsData
  else if name = "NSDate" then some .nsDate
  else if name = "NSDictionary" then some .nsDictionary
  else if name = "NSHashTable" then some .nsHashTable
  else if name = "NSNull" then some .nsNull
  else if name = "NSObject" then some .composite
  else if name = "NSSet" then some .nsArray
  else if name = "NSString" then some .nsString
  else if name = "NSURL" then some .nsURL
  else if name = "NSUUID" then some .nsUUID
  else none

/-- The `for name in classes` scan of `_DecodeNSObject`: the first
`$classes` entry with a registered callback wins.  Unhashable entries
(lists, mappings) raise `TypeError` from `dict.get`; other non-text
entries hash fine and simply miss the table. -/
def selectCallback : List Value → Except PyErr (Option NSHandler)
  | [] => .ok none
  | .str s :: rest =>
      match callbacks s with
      | some h => .ok (some h)
      | none => selectCallback rest
  | .array _ :: _ => .error .typeError
  | .dict _ :: _ => .error .typeError
  | _ :: rest => selectCallback rest

/-- `_GetClassName`: resolve `$class` through the pool and return the
truthy `$classname` value. -/
def getClassName (v pool : Value) : Except PyErr Value :=
  match v with
  | .dict es =>
      let classProp := (dictGet es "$class").getD .null
      if !classProp.truthy then .error (.runtimeError "Missing $class property.")
      else
        match getPlistUID classProp with
        | none => .error (.runtimeError "Missing UID in $class property.")
        | some u =>
            match pyIndex pool u with
            | .error e => .error e
            | .ok referenced =>
                if !referenced.truthy then
                  .error (.runtimeError "Missing class with UID.")
                else
                  match referenced with
                  | .dict rs =>
                      let className := (dictGet rs "$classname").getD .null
                      if !className.truthy then
                        .error (.runtimeError "$classname property missing in class.")
                      else .ok className
                  | _ => .error .attributeError
  | _ => .error .attributeError

/-- Lower-case hexadecimal digit. -/
def hexDigit (n : Nat) : Char :=
  if n < 10 then Char.ofNat (48 + n) else Char.ofNat (87 + (n % 16))

/-- Two hex digits of one byte. -/
def byteHex (b : Nat) : List Char :=
  [hexDigit (b / 16 % 16), hexDigit (b % 16)]

/-- `str(uuid.UUID(bytes=bs))`: 8-4-4-4-12 lower-case hex. -/
def uuidString (bs : List Nat) : String :=
  let hx := (bs.map byteHex).flatten
  String.mk (hx.take 8 ++ ['-'] ++ (hx.drop 8).take 4 ++ ['-'] ++
    (hx.drop 12).take 4 ++ ['-'] ++ (hx.drop 16).take 4 ++ ['-'] ++ hx.drop 20)

/-- `_DecodeNSData`. -/
def decodeNSData (prop pool : Value) : Except PyErr Value :=
  match prop with
  | .dict es =>
      match getClassName (.dict es) pool with
      | .error e => .error e
      | .ok className =>
          if !(dictHasKey es "NS.data") then
            .error (.runtimeError ("Missing NS.data in " ++ msgStr className))
          else
            match (dictGet es "NS.data").getD .null with
            | .data bs => .ok (.data bs)
            | _ => .error (.runtimeError ("Unsupported type in NS.data of " ++ msgStr className))
  | _ => .error .attributeError

/-- `_DecodeNSDate`: requires a floating-point `NS.time`. -/
def decodeNSDate (prop pool : Value) : Except PyErr Value :=
  match prop with
  | .dict es =>
      match getClassName (.dict es) pool with
      | .error e => .error e
      | .ok className =>
          if !(dictHasKey es "NS.time") then
            .error (.runtimeError ("Missing NS.time in " ++ msgStr className))
          else
            match (dictGet es "NS.time").getD .null with
            | .real r => .ok (.real r)
            | _ => .error (.runtimeError ("Unsupported type in NS.time of " ++ msgStr className))
  | _ => .error .attributeError

/-- `_DecodeNSNull`: always `None`. -/
def decodeNSNull (_prop _pool : Value) : Except PyErr Value :=
  .ok .null

/-- `_DecodeNSString`: requires a text `NS.string` (returned as-is, even
the sentinel text). -/
def decodeNSString (prop pool : Value) : Except PyErr Value :=
  match prop with
  | .dict es =>
      match getClassName (.dict es) pool with
      | .error e => .error e
      | .ok className =>
          if !(dictHasKey es "NS.string") then
            .error (.runtimeError ("Missing NS.string in " ++ msgStr className))
          else
            match (dictGet es "NS.string").getD .null with
            | .str s => .ok (.str s)
            | _ => .error (.runtimeError ("Unsupported type in NS.string of " ++ msgStr className))
  | _ => .error .attributeError

/-- `_DecodeNSURL`: `NS.base` and `NS.relative` are resolved through the
pool directly (not through the dispatcher); both referenced entries must
be truthy text, and a base equal to the sentinel text yields the
relative part alone. -/
def decodeNSURL (prop pool : Value) : Except PyErr Value :=
  match prop with
  | .dict es =>
      if !(dictHasKey es "NS.base") || !(dictHasKey es "NS.relative") then
        .error (.runtimeError "Missing NS.base or NS.relative in NSURL")
      else
        match getPlistUID ((dictGet es "NS.base").getD .null) with
        | none => .error (.runtimeError "Missing UID in NS.base property of NSURL.")
        | some bu =>
            match pyIndex pool bu with
            | .error e => .error e
            | .ok nsBase =>
                if !nsBase.truthy then .error (.runtimeError "Missing NSURL.NS.base.")
                else
                  match nsBase with
                  | .str b =>
                      match getPlistUID ((dictGet es "NS.relative").getD .null) with
                      | none => .error (.runtimeError "Missing UID in NS.relative property of NSURL.")
                      | some ru =>
                          match pyIndex pool ru with
                          | .error e => .error e
                          | .ok nsRel =>
                              if !nsRel.truthy then
                                .error (.runtimeError "Missing NSURL.NS.relative.")
                              else
                                match nsRel with
                                | .str r =>
                                    if b = "$null" then .ok (.str r)
                                    else .ok (.str (b ++ "/" ++ r))
                                | _ => .error (.runtimeError "Unsupported type in NSURL.NS.relative.")
                  | _ => .error (.runtimeError "Unsupported type in NSURL.NS.base.")
  | _ => .error .attributeError

/-- `_DecodeNSUUID`: `NS.uuidbytes` must have length 16; a 16-element
byte string yields its canonical hex form, any other 16-long value makes
`uuid.UUID` raise `TypeError`. -/
def decodeNSUUID (prop _pool : Value) : Except PyErr Value :=
  match prop with
  | .dict es =>
      if !(dictHasKey es "NS.uuidbytes") then
        .error (.runtimeError "Missing NS.uuidbytes")
      else
        let bsv := (dictGet es "NS.uuidbytes").getD .null
        match pyLen bsv with
        | .error e => .error e
        | .ok n =>
            if n ≠ 16 then .error (.runtimeError "Unsupported NS.uuidbytes size")
            else
              match bsv with
              | .data bs => .ok (.str (uuidString bs))
              | _ => .error .typeError
  | _ => .error .attributeError

mutual

/-- `_DecodeObject`, the dispatcher: a mapping containing `$class` is
dispatched as an encoded record, the sentinel text decodes to null, and
every other value — including ordered sequences, `$class`-less mappings
and bare UID leaves — is returned unchanged. -/
def decodeObject : Nat → Value → Value → List Int → Except PyErr (Value × List Int)
  | 0, _, _, _ => .error .recursionError
  | fuel + 1, v, pool, parents =>
      match v with
      | .dict es =>
          if dictHasKey es "$class" then decodeNSObject fuel (.dict es) pool parents
          else .ok (.dict es, parents)
      | .str s => if s = "$null" then .ok (.null, parents) else .ok (.str s, parents)
      | other => .ok (other, parents)

/-- `_DecodeNSObject`: resolve the `$class` descriptor, require a truthy
`$classname` and `$classes`, scan `$classes` for the first registered
callback and invoke it; `$classname` itself is never looked up in the
callback table, it only appears in the missing-callback message. -/
def decodeNSObject : Nat → Value → Value → List Int → Except PyErr (Value × List Int)
  | 0, _, _, _ => .error .recursionError
  | fuel + 1, v, pool, parents =>
      match v with
      | .dict es =>
          let classProp := (dictGet es "$class").getD .null
          if !classProp.truthy then
            .error (.runtimeError "$class property missing in NSObject.")
          else
            match getPlistUID classProp with
            | none => .error (.runtimeError "Missing UID in $class property of NSObject.")
            | some cu =>
                match pyIndex pool cu with
                | .error e => .error e
                | .ok referenced =>
                    if !referenced.truthy then
                      .error (.runtimeError "Missing NSObject.$class.")
                    else
                      match referenced with
                      | .dict rs =>
                          let className := (dictGet rs "$classname").getD .null
                          if !className.truthy then
                            .error (.runtimeError "$classname property missing in NSObject.$class.")
                          else
                            let classes := (dictGet rs "$classes").getD .null
                            if !classes.truthy then
                              .error (.runtimeError "$classes property missing in NSObject.$class.")
                            else
                              match pyIter classes with
                              | .error e => .error e
                              | .ok names =>
                                  match selectCallback names with
                                  | .error e => .error e
                                  | .ok none =>
                                      .error (.runtimeError
                                        ("Missing callback for class: " ++ msgStr className))
                                  | .ok (some h) =>
                                      match h with
                                      | .nsArray => decodeNSArray fuel (.dict es) pool parents
                                      | .nsData =>
                                          match decodeNSData (.dict es) pool with
                                          | .error e => .error e
                                          | .ok w => .ok (w, parents)
                                      | .nsDate =>
                                          match decodeNSDate (.dict es) pool with
                                          | .error e => .error e
                                          | .ok w => .ok (w, parents)
                                      | .nsDictionary => decodeNSDictionary fuel (.dict es) pool parents
                                      | .nsHashTable => decodeNSHashTable fuel (.dict es) pool parents
                                      | .nsNull =>
                                          match decodeNSNull (.dict es) pool with
                                          | .error e => .error e
                                          | .ok w => .ok (w, parents)
                                      | .composite => decodeCompositeObject fuel (.dict es) pool parents
                                      | .nsString =>
                                          match decodeNSString (.dict es) pool with
                                          | .error e => .error e
                                          | .ok w => .ok (w, parents)
                                      | .nsURL =>
                                          match decodeNSURL (.dict es) pool with
                                          | .error e => .error e
                                          | .ok w => .ok (w, parents)
                                      | .nsUUID =>
                                          match decodeNSUUID (.dict es) pool with
                                          | .error e => .error e
                                          | .ok w => .ok (w, parents)
                      | _ => .error .attributeError
      | _ => .error .attributeError

/-- `_DecodeCompositeObject`: copy every key except `$class`, decoding
non-UID values in place and UID values through the pool under the cycle
guard.  A non-mapping argument raises once its first key is looked up. -/
def decodeCompositeObject : Nat → Value → Value → List Int → Except PyErr (Value × List Int)
  | 0, _, _, _ => .error .recursionError
  | fuel + 1, v, pool, parents =>
      match v with
      | .dict es =>
          match compositeLoop fuel es es pool parents [] with
          | .error e => .error e
          | .ok (out, parents1) => .ok (.dict out, parents1)
      | other =>
          match pyIter other with
          | .error e => .error e
          | .ok items =>
              if items.isEmpty then .ok (.dict [], parents)
              else .error .attributeError

/-- The `for key in plist_property` loop of `_DecodeCompositeObject`;
`es` is the full record for the `plist_property.get(key, None)` lookup.
A value UID already on the ancestors stack drops the field silently. -/
def compositeLoop : Nat → List (String × Value) → List (String × Value) → Value →
    List Int → List (String × Value) → Except PyErr (List (String × Value) × List Int)
  | 0, _, _, _, _, _ => .error .recursionError
  | _ + 1, [], _, _, parents, acc => .ok (acc, parents)
  | fuel + 1, (key, _) :: rest, es, pool, parents, acc =>
      if key = "$class" then compositeLoop fuel rest es pool parents acc
      else
        let valueProp := (dictGet es key).getD .null
        match getPlistUID valueProp with
        | none =>
            match decodeObject fuel valueProp pool parents with
            | .error e => .error e
            | .ok (w, parents1) =>
                compositeLoop fuel rest es pool parents1 (dictSet acc key w)
        | some u =>
            if parents.contains u then compositeLoop fuel rest es pool parents acc
            else
              match pyIndex pool u with
              | .error e => .error e
              | .ok referenced =>
                  match decodeObject fuel referenced pool (parents ++ [u]) with
                  | .error e => .error e
                  | .ok (w, parents1) =>
                      match pyPop parents1 with
                      | .error e => .error e
                      | .ok parents2 =>
                          compositeLoop fuel rest es pool parents2 (dictSet acc key w)

/-- `_DecodeNSArray` (also `NSSet`): every `NS.objects` element must be
a UID leaf; elements already on the ancestors stack are dropped. -/
def decodeNSArray : Nat → Value → Value → List Int → Except PyErr (Value × List Int)
  | 0, _, _, _ => .error .recursionError
  | fuel + 1, v, pool, parents =>
      match v with
      | .dict es =>
          match getClassName (.dict es) pool with
          | .error e => .error e
          | .ok className =>
              if !(dictHasKey es "NS.objects") then
                .error (.runtimeError ("Missing NS.objects in " ++ msgStr className))
              else
                match pyIter ((dictGet es "NS.objects").getD .null) with
                | .error e => .error e
                | .ok items =>
                    match arrayLoop fuel (msgStr className) items 0 pool parents [] with
                    | .error e => .error e
                    | .ok (xs, parents1) => .ok (.array xs, parents1)
      | _ => .error .attributeError

/-- The `enumerate(ns_objects_property)` loop of `_DecodeNSArray`. -/
def arrayLoop : Nat → String → List Value → Nat → Value → List Int → List Value →
    Except PyErr (List Value × List Int)
  | 0, _, _, _, _, _, _ => .error .recursionError
  | _ + 1, _, [], _, _, parents, acc => .ok (acc, parents)
  | fuel + 1, cn, item :: rest, idx, pool, parents, acc =>
      match getPlistUID item with
      | none =>
          .error (.runtimeError
            ("Missing UID in NS.objects[" ++ toString idx ++ "] property of " ++ cn ++ "."))
      | some u =>
          if parents.contains u then arrayLoop fuel cn rest (idx + 1) pool parents acc
          else
            match pyIndex pool u with
            | .error e => .error e
            | .ok referenced =>
                match decodeObject fuel referenced pool (parents ++ [u]) with
                | .error e => .error e
                | .ok (w, parents1) =>
                    match pyPop parents1 with
                    | .error e => .error e
                    | .ok parents2 =>
                        arrayLoop fuel cn rest (idx + 1) pool parents2 (acc ++ [w])

/-- `_DecodeNSDictionary`: `NS.keys` and `NS.objects` must exist with
equal lengths; each key must be a UID leaf decoding to truthy text, each
value a UID leaf; a value UID already on the ancestors stack drops the
pair. -/
def decodeNSDictionary : Nat → Value → Value → List Int → Except PyErr (Value × List Int)
  | 0, _, _, _ => .error .recursionError
  | fuel + 1, v, pool, parents =>
      match v with
      | .dict es =>
          match getClassName (.dict es) pool with
          | .error e => .error e
          | .ok className =>
              if !(dictHasKey es "NS.keys") || !(dictHasKey es "NS.objects") then
                .error (.runtimeError ("Missing NS.keys or NS.objects in " ++ msgStr className))
              else
                let keysProp := (dictGet es "NS.keys").getD .null
                let objsProp := (dictGet es "NS.objects").getD .null
                match pyLen keysProp with
                | .error e => .error e
                | .ok nk =>
                    match pyLen objsProp with
                    | .error e => .error e
                    | .ok no =>
                        if nk ≠ no then
                          .error (.runtimeError
                            ("Mismatch between number of NS.keys and NS.objects in " ++
                              msgStr className))
                        else
                          match pyIter objsProp with
                          | .error e => .error e
                          | .ok objs =>
                              match dictLoop fuel (msgStr className) keysProp objs 0 pool
                                  parents [] with
                              | .error e => .error e
                              | .ok (out, parents1) => .ok (.dict out, parents1)
      | _ => .error .attributeError

/-- The `enumerate(ns_objects_property)` loop of `_DecodeNSDictionary`;
keys are fetched by integer index from the raw `NS.keys` value. -/
def dictLoop : Nat → String → Value → List Value → Nat → Value → List Int →
    List (String × Value) → Except PyErr (List (String × Value) × List Int)
  | 0, _, _, _, _, _, _, _ => .error .recursionError
  | _ + 1, _, _, [], _, _, parents, acc => .ok (acc, parents)
  | fuel + 1, cn, keysProp, obj :: rest, idx, pool, parents, acc =>
      match pyIndex keysProp (idx : Int) with
      | .error e => .error e
      | .ok keyProp =>
          match getPlistUID keyProp with
          | none =>
              .error (.runtimeError
                ("Missing UID in NS.keys[" ++ toString idx ++ "] property of " ++ cn ++ "."))
          | some ku =>
              match pyIndex pool ku with
              | .error e => .error e
              | .ok keyRef =>
                  match decodeObject fuel keyRef pool (parents ++ [ku]) with
                  | .error e => .error e
                  | .ok (nsKey, parents1) =>
                      match pyPop parents1 with
                      | .error e => .error e
                      | .ok parents2 =>
                          if !nsKey.truthy then
                            .error (.runtimeError
                              ("Missing " ++ cn ++ ".NS.keys[" ++ toString idx ++ "]."))
                          else
                            match nsKey with
                            | .str ks =>
                                match getPlistUID obj with
                                | none =>
                                    .error (.runtimeError
                                      ("Missing UID in NS.objects[" ++ toString idx ++
                                        "] property of " ++ cn ++ "." ++ ks ++ "."))
                                | some vu =>
                                    if parents2.contains vu then
                                      dictLoop fuel cn keysProp rest (idx + 1) pool parents2 acc
                                    else
                                      match pyIndex pool vu with
                                      | .error e => .error e
                                      | .ok objRef =>
                                          match decodeObject fuel objRef pool
                                              (parents2 ++ [vu]) with
                                          | .error e => .error e
                                          | .ok (w, parents3) =>
                                              match pyPop parents3 with
                                              | .error e => .error e
                                              | .ok parents4 =>
                                                  dictLoop fuel cn keysProp rest (idx + 1)
                                                    pool parents4 (dictSet acc ks w)
                            | _ =>
                                .error (.runtimeError
                                  ("Unsupported type in " ++ cn ++ ".NS.keys[" ++
                                    toString idx ++ "]."))

/-- `_DecodeNSHashTable`: `$1` must be a UID leaf; a `$1` UID already on
the ancestors stack is a hard error, otherwise the referenced truthy
entry is decoded as a generic composite. -/
def decodeNSHashTable : Nat → Value → Value → List Int → Except PyErr (Value × List Int)
  | 0, _, _, _ => .error .recursionError
  | fuel + 1, v, pool, parents =>
      match v with
      | .dict es =>
          match getClassName (.dict es) pool with
          | .error e => .error e
          | .ok className =>
              if !(dictHasKey es "$1") then
                .error (.runtimeError ("Missing $1 in " ++ msgStr className))
              else
                let valueProp := (dictGet es "$1").getD .null
                match getPlistUID valueProp with
                | none =>
                    .error (.runtimeError ("Unsupported " ++ msgStr className ++ ".$1 type"))
                | some u =>
                    if parents.contains u then
                      .error (.runtimeError
                        (msgStr className ++ ".$1 wth UID in parent objects"))
                    else
                      match pyIndex pool u with
                      | .error e => .error e
                      | .ok referenced =>
                          if !referenced.truthy then
                            .error (.runtimeError ("Missing " ++ msgStr className ++ ".$1."))
                          else
                            match decodeCompositeObject fuel referenced pool (parents ++ [u]) with
                            | .error e => .error e
                            | .ok (w, parents1) =>
                                match pyPop parents1 with
                                | .error e => .error e
                                | .ok parents2 => .ok (w, parents2)
      | _ => .error .attributeError

end

/-- The dispatch target of `_DecodeNSObject` once a callback name has
been selected (the `getattr` call), named so theorems can speak about
the selected handler. -/
def applyCallback (fuel : Nat) (h : NSHandler) (prop pool : Value) (parents : List Int) :
    Except PyErr (Value × List Int) :=
  match h with
  | .nsArray => decodeNSArray fuel prop pool parents
  | .nsData =>
      match decodeNSData prop pool with
      | .error e => .error e
      | .ok w => .ok (w, parents)
  | .nsDate =>
      match decodeNSDate prop pool with
      | .error e => .error e
      | .ok w => .ok (w, parents)
  | .nsDictionary => decodeNSDictionary fuel prop pool parents
  | .nsHashTable => decodeNSHashTable fuel prop pool parents
  | .nsNull =>
      match decodeNSNull prop pool with
      | .error e => .error e
      | .ok w => .ok (w, parents)
  | .composite => decodeCompositeObject fuel prop pool parents
  | .nsString =>
      match decodeNSString prop pool with
      | .error e => .error e
      | .ok w => .ok (w, parents)
  | .nsURL =>
      match decodeNSURL prop pool with
      | .error e => .error e
      | .ok w => .ok (w, parents)
  | .nsUUID =>
      match decodeNSUUID prop pool with
      | .error e => .error e
      | .ok w => .ok (w, parents)

/-- The `$top` loop of `Decode`: a UID entry is resolved through
`_DecodeNSObject` (not the general dispatcher) with a fresh ancestors
stack holding only its own index; a non-UID entry is stored verbatim. -/
def decodeTopLoop (fuel : Nat) : List (String × Value) → Value → List (String × Value) →
    Except PyErr (List (String × Value))
  | [], _, acc => .ok acc
  | (name, vp) :: rest, pool, acc =>
      match getPlistUID vp with
      | none => decodeTopLoop fuel rest pool (dictSet acc name vp)
      | some u =>
          match pyIndex pool u with
          | .error e => .error e
          | .ok referenced =>
              if !referenced.truthy then
                .error (.runtimeError ("Missing $top " ++ name ++ " with UID."))
              else
                match decodeNSObject fuel referenced pool [u] with
                | .error e => .error e
                | .ok (w, _) => decodeTopLoop fuel rest pool (dictSet acc name w)

/-- `Decode`: validate the envelope, default an absent or falsy pool and
top map, and decode each top entry. -/
def Decode (fuel : Nat) (root : Value) : Except PyErr Value :=
  match root with
  | .dict es =>
      let archiver := (dictGet es "$archiver").getD .null
      let version := (dictGet es "$version").getD .null
      if !(pyEqStr archiver "NSKeyedArchiver") || !(pyEqInt version 100000) then
        .error (.runtimeError "Unsupported plist")
      else
        let objectsRaw := (dictGet es "$objects").getD .null
        let pool := if objectsRaw.truthy then objectsRaw else .array []
        let topRaw := (dictGet es "$top").getD .null
        let top := if topRaw.truthy then topRaw else .dict []
        match top with
        | .dict tes =>
            match decodeTopLoop fuel tes pool [] with
            | .error e => .error e
            | .ok out => .ok (.dict out)
        | _ => .error .attributeError
  | _ => .error (.runtimeError "Unsupported plist: unsupported root item type.")

/-- `IsEncoded`: a mapping whose `$archiver` and `$version` entries
equal the archive header literals. -/
def IsEncoded (root : Value) : Bool :=
  match root with
  | .dict es =>
      pyEqStr ((dictGet es "$archiver").getD .null) "NSKeyedArchiver" &&
        pyEqInt ((dictGet es "$version").getD .null) 100000
  | _ => false

mutual

/-- Whether a UID leaf occurs anywhere in a value tree. -/
def containsUID : Value → Bool
  | .uid _ => true
  | .array xs => containsUIDList xs
  | .dict es => containsUIDEntries es
  | _ => false

/-- `containsUID` over the elements of a sequence. -/
def containsUIDList : List Value → Bool
  | [] => false
  | v :: rest => containsUID v || containsUIDList rest

/-- `containsUID` over the values of a mapping. -/
def containsUIDEntries : List (String × Value) → Bool
  | [] => false
  | (_, v) :: rest => containsUID v || containsUIDEntries rest

end

/-- The structural key names that the no-residual-keys invariant bans
from decoded output. -/
def residualKeys : List String :=
  ["$class", "$classname", "$classes", "CF$UID", "NS.objects", "NS.keys",
   "NS.string", "NS.data", "NS.time", "NS.base", "NS.relative", "NS.uuidbytes", "$1"]

mutual

/-- Whether any mapping in a value tree carries a structural key name. -/
def hasResidualKey : Value → Bool
  | .array xs => hasResidualKeyList xs
  | .dict es => hasResidualKeyEntries es
  | _ => false

/-- `hasResidualKey` over the elements of a sequence. -/
def hasResidualKeyList : List Value → Bool
  | [] => false
  | v :: rest => hasResidualKey v || hasResidualKeyList rest

/-- `hasResidualKey` over the entries of a mapping. -/
def hasResidualKeyEntries : List (String × Value) → Bool
  | [] => false
  | (k, v) :: rest =>
      residualKeys.contains k || hasResidualKey v || hasResidualKeyEntries rest

end

/-- Popping the element just pushed restores the ancestors stack. -/
theorem pyPop_append (l : List Int) (a : Int) : pyPop (l ++ [a]) = .ok l := by
  simp [pyPop]

/-- Looking up the key just assigned yields the assigned value. -/
theorem dictGet_dictSet_self (d : List (String × Value)) (k : String) (v : Value) :
    dictGet (dictSet d k v) k = some v := by
  induction d with
  | nil => simp [dictSet, dictGet]
  | cons e rest ih =>
      obtain ⟨k1, v1⟩ := e
      by_cases hk : k1 = k
      · simp [dictSet, dictGet, hk]
      · simp [dictSet, dictGet, hk, ih]

/-- Assignment leaves lookups of other keys unchanged. -/
theorem dictGet_dictSet_ne (d : List (String × Value)) (k k1 : String) (v : Value)
    (h : k1 ≠ k) : dictGet (dictSet d k v) k1 = dictGet d k1 := by
  induction d with
  | nil => simp [dictSet, dictGet, Ne.symm h]
  | cons e rest ih =>
      obtain ⟨k2, v2⟩ := e
      simp only [dictSet]
      by_cases hk : k2 = k
      · subst hk
        simp [dictGet, Ne.symm h]
      · rw [if_neg hk]
        by_cases hk1 : k2 = k1
        · simp [dictGet, hk1]
        · simp [dictGet, hk1, ih]

/-- C10: every decode operation that returns without error leaves the
ancestors stack (`parent_objects`) exactly as it was at entry: each
index pushed before a recursive call is popped when that call returns,
so sibling decodes within one record see the same ancestor chain.  The
conjunction covers the dispatcher, the record decoder and every
recursive per-class handler together with their element loops. -/
theorem decode_preserves_parent_objects (fuel : Nat) :
    (∀ v pool parents w parents1,
      decodeObject fuel v pool parents = .ok (w, parents1) → parents1 = parents) ∧
    (∀ v pool parents w parents1,
      decodeNSObject fuel v pool parents = .ok (w, parents1) → parents1 = parents) ∧
    (∀ v pool parents w parents1,
      decodeCompositeObject fuel v pool parents = .ok (w, parents1) → parents1 = parents) ∧
    (∀ rest es pool parents acc out parents1,
      compositeLoop fuel rest es pool parents acc = .ok (out, parents1) → parents1 = parents) ∧
    (∀ v pool parents w parents1,
      decodeNSArray fuel v pool parents = .ok (w, parents1) → parents1 = parents) ∧
    (∀ cn items idx pool parents acc out parents1,
      arrayLoop fuel cn items idx pool parents acc = .ok (out, parents1) → parents1 = parents) ∧
    (∀ v pool parents w parents1,
      decodeNSDictionary fuel v pool parents = .ok (w, parents1) → parents1 = parents) ∧
    (∀ cn keysProp objs idx pool parents acc out parents1,
      dictLoop fuel cn keysProp objs idx pool parents acc = .ok (out, parents1) →
        parents1 = parents) ∧
    (∀ v pool parents w parents1,
      decodeNSHashTable fuel v pool parents = .ok (w, parents1) → parents1 = parents) := by
  induction fuel with
  | zero =>
      refine ⟨?_, ?_, ?_, ?_, ?_, ?_, ?_, ?_, ?_⟩
      · intro v pool parents w parents1 h; simp [decodeObject] at h
      · intro v pool parents w parents1 h; simp [decodeNSObject] at h
      · intro v pool parents w parents1 h; simp [decodeCompositeObject] at h
      · intro rest es pool parents acc out parents1 h; simp [compositeLoop] at h
      · intro v pool parents w parents1 h; simp [decodeNSArray] at h
      · intro cn items idx pool parents acc out parents1 h; simp [arrayLoop] at h
      · intro v pool parents w parents1 h; simp [decodeNSDictionary] at h
      · intro cn keysProp objs idx pool parents acc out parents1 h; simp [dictLoop] at h
      · intro v pool parents w parents1 h; simp [decodeNSHashTable] at h
  | succ fuel ih =>
      obtain ⟨ihO, ihNS, ihC, ihCL, ihA, ihAL, ihD, ihDL, ihH⟩ := ih
      refine ⟨?_, ?_, ?_, ?_, ?_, ?_, ?_, ?_, ?_⟩
      · -- decodeObject
        intro v pool parents w parents1 h
        simp only [decodeObject] at h
        split at h
        · split at h
          · exact ihNS _ _ _ _ _ h
          · simp only [Except.ok.injEq, Prod.mk.injEq] at h
            exact h.2.symm
        · split at h <;>
            (simp only [Except.ok.injEq, Prod.mk.injEq] at h; exact h.2.symm)
        · simp only [Except.ok.injEq, Prod.mk.injEq] at h
          exact h.2.symm
      · -- decodeNSObject
        intro v pool parents w parents1 h
        simp only [decodeNSObject] at h
        repeat' split at h
        all_goals first
          | (simp only [Except.ok.injEq, Prod.mk.injEq] at h; exact h.2.symm)
          | exact ihA _ _ _ _ _ h
          | exact ihC _ _ _ _ _ h
          | exact ihD _ _ _ _ _ h
          | exact ihH _ _ _ _ _ h
          | simp at h
      · -- decodeCompositeObject
        intro v pool parents w parents1 h
        simp only [decodeCompositeObject] at h
        split at h
        · split at h
          · simp at h
          · rename_i out parentsA heq
            simp only [Except.ok.injEq, Prod.mk.injEq] at h
            exact h.2.symm.trans (ihCL _ _ _ _ _ _ _ heq)
        · split at h
          · simp at h
          · split at h
            · simp only [Except.ok.injEq, Prod.mk.injEq] at h
              exact h.2.symm
            · simp at h
      · -- compositeLoop
        intro rest es pool parents acc out parents1 h
        match rest with
        | [] =>
            simp only [compositeLoop, Except.ok.injEq, Prod.mk.injEq] at h
            exact h.2.symm
        | (key, kv) :: rest =>
            simp only [compositeLoop] at h
            split at h
            · exact ihCL _ _ _ _ _ _ _ h
            · split at h
              · split at h
                · simp at h
                · rename_i w1 parentsA heq
                  exact (ihCL _ _ _ _ _ _ _ h).trans (ihO _ _ _ _ _ heq)
              · split at h
                · exact ihCL _ _ _ _ _ _ _ h
                · split at h
                  · simp at h
                  · split at h
                    · simp at h
                    · rename_i w1 parentsA heq
                      split at h
                      · simp at h
                      · rename_i parentsB heqPop
                        rw [ihO _ _ _ _ _ heq, pyPop_append] at heqPop
                        simp only [Except.ok.injEq] at heqPop
                        exact (ihCL _ _ _ _ _ _ _ h).trans heqPop.symm
      · -- decodeNSArray
        intro v pool parents w parents1 h
        simp only [decodeNSArray] at h
        split at h
        · split at h
          · simp at h
          · split at h
            · simp at h
            · split at h
              · simp at h
              · split at h
                · simp at h
                · rename_i xs parentsA heq
                  simp only [Except.ok.injEq, Prod.mk.injEq] at h
                  exact h.2.symm.trans (ihAL _ _ _ _ _ _ _ _ heq)
        · simp at h
      · -- arrayLoop
        intro cn items idx pool parents acc out parents1 h
        match items with
        | [] =>
            simp only [arrayLoop, Except.ok.injEq, Prod.mk.injEq] at h
            exact h.2.symm
        | item :: rest =>
            simp only [arrayLoop] at h
            split at h
            · simp at h
            · split at h
              · exact ihAL _ _ _ _ _ _ _ _ h
              · split at h
                · simp at h
                · split at h
                  · simp at h
                  · rename_i w1 parentsA heq
                    split at h
                    · simp at h
                    · rename_i parentsB heqPop
                      rw [ihO _ _ _ _ _ heq, pyPop_append] at heqPop
                      simp only [Except.ok.injEq] at heqPop
                      exact (ihAL _ _ _ _ _ _ _ _ h).trans heqPop.symm
      · -- decodeNSDictionary
        intro v pool parents w parents1 h
        simp only [decodeNSDictionary] at h
        split at h
        · split at h
          · simp at h
          · split at h
            · simp at h
            · split at h
              · simp at h
              · split at h
                · simp at h
                · split at h
                  · simp at h
                  · split at h
                    · simp at h
                    · split at h
                      · simp at h
                      · rename_i out2 parentsA heq
                        simp only [Except.ok.injEq, Prod.mk.injEq] at h
                        exact h.2.symm.trans (ihDL _ _ _ _ _ _ _ _ _ heq)
        · simp at h
      · -- dictLoop
        intro cn keysProp objs idx pool parents acc out parents1 h
        match objs with
        | [] =>
            simp only [dictLoop, Except.ok.injEq, Prod.mk.injEq] at h
            exact h.2.symm
        | obj :: rest =>
            simp only [dictLoop] at h
            split at h
            · simp at h
            · split at h
              · simp at h
              · split at h
                · simp at h
                · split at h
                  · simp at h
                  · rename_i nsKey parentsA heqK
                    split at h
                    · simp at h
                    · rename_i parentsB heqPop
                      rw [ihO _ _ _ _ _ heqK, pyPop_append] at heqPop
                      simp only [Except.ok.injEq] at heqPop
                      split at h
                      · simp at h
                      · split at h
                        · split at h
                          · simp at h
                          · split at h
                            · exact (ihDL _ _ _ _ _ _ _ _ _ h).trans heqPop.symm
                            · split at h
                              · simp at h
                              · split at h
                                · simp at h
                                · rename_i w1 parentsC heqV
                                  split at h
                                  · simp at h
                                  · rename_i parentsD heqPop2
                                    rw [ihO _ _ _ _ _ heqV, pyPop_append] at heqPop2
                                    simp only [Except.ok.injEq] at heqPop2
                                    exact (ihDL _ _ _ _ _ _ _ _ _ h).trans
                                      (heqPop2.symm.trans heqPop.symm)
                        · simp at h
      · -- decodeNSHashTable
        intro v pool parents w parents1 h
        simp only [decodeNSHashTable] at h
        split at h
        · split at h
          · simp at h
          · split at h
            · simp at h
            · split at h
              · simp at h
              · split at h
                · simp at h
                · split at h
                  · simp at h
                  · split at h
                    · simp at h
                    · split at h
                      · simp at h
                      · rename_i w1 parentsA heq
                        split at h
                        · simp at h
                        · rename_i parentsB heqPop
                          rw [ihC _ _ _ _ _ heq, pyPop_append] at heqPop
                          simp only [Except.ok.injEq] at heqPop
                          simp only [Except.ok.injEq, Prod.mk.injEq] at h
                          exact h.2.symm.trans heqPop.symm
        · simp at h

/-- Archive whose record descriptor has a `$classname` that is in the
callback table (`NSNull`) while no `$classes` entry is. -/
def arcClassnameOnly : Value := .dict [
  ("$archiver", .str "NSKeyedArchiver"),
  ("$version", .int 100000),
  ("$objects", .array [.str "$null",
      .dict [("$class", .uid 2)],
      .dict [("$classname", .str "NSNull"), ("$classes", .array [.str "Foo"])]]),
  ("$top", .dict [("root", .uid 1)])]

/-- C1 (counterexample): a record whose `$classname` is `NSNull` — a name
in the callback table — but whose `$classes` holds no table name is not
decoded by the `NSNull` handler; decoding fails with the missing-callback
error, because the dispatcher never looks `$classname` up in the table. -/
theorem classname_not_consulted_counterexample :
    Decode 20 arcClassnameOnly =
      .error (.runtimeError "Missing callback for class: NSNull") := rfl

/-- Archive whose `$top` entry is a UID to a plain text pool entry. -/
def arcTopPlainString : Value := .dict [
  ("$archiver", .str "NSKeyedArchiver"),
  ("$version", .int 100000),
  ("$objects", .array [.str "$null", .str "hello"]),
  ("$top", .dict [("root", .uid 1)])]

/-- C2 (counterexample): a `$top` UID referencing the plain text pool
entry `"hello"` does not decode to that text; `Decode` hands the entry
straight to the record decoder, whose `.get` call on a text value raises
`AttributeError`. -/
theorem top_plain_value_errors_counterexample :
    Decode 20 arcTopPlainString = .error .attributeError := rfl

/-- Archive whose composite record has a user key holding a plain
sequence that contains a UID leaf. -/
def arcSequenceWithUID : Value := .dict [
  ("$archiver", .str "NSKeyedArchiver"),
  ("$version", .int 100000),
  ("$objects", .array [.str "$null",
      .dict [("$class", .uid 2), ("xs", .array [.uid 0])],
      .dict [("$classname", .str "MyClass"), ("$classes", .array [.str "NSObject"])]]),
  ("$top", .dict [("root", .uid 1)])]

/-- C3 (counterexample): a plain sequence reached by the dispatcher is
returned verbatim — the UID leaf inside it is carried through to the
output instead of being resolved against the pool. -/
theorem sequence_uid_carried_through_counterexample :
    Decode 20 arcSequenceWithUID =
      .ok (.dict [("root", .dict [("xs", .array [.uid 0])])]) ∧
    containsUID (.dict [("root", .dict [("xs", .array [.uid 0])])]) = true :=
  ⟨rfl, rfl⟩

/-- Archive whose composite record has a user key named `NS.string`. -/
def arcResidualKey : Value := .dict [
  ("$archiver", .str "NSKeyedArchiver"),
  ("$version", .int 100000),
  ("$objects", .array [.str "$null",
      .dict [("$class", .uid 2), ("NS.string", .str "hi")],
      .dict [("$classname", .str "MyClass"), ("$classes", .array [.str "NSObject"])]]),
  ("$top", .dict [("root", .uid 1)])]

/-- C4 (counterexample): an archive that decodes without error yet whose
output contains a mapping with the structural key name `NS.string` — the
composite handler copies every key except `$class`. -/
theorem residual_key_in_output_counterexample :
    Decode 20 arcResidualKey = .ok (.dict [("root", .dict [("NS.string", .str "hi")])]) ∧
    hasResidualKey (.dict [("root", .dict [("NS.string", .str "hi")])]) = true :=
  ⟨rfl, rfl⟩

/-- Archive with an out-of-range `$top` UID and no `$objects` pool. -/
def arcOutOfRange : Value := .dict [
  ("$archiver", .str "NSKeyedArchiver"),
  ("$version", .int 100000),
  ("$top", .dict [("root", .uid 5)])]

/-- C6: dereferencing a UID whose index is not an in-range pool index
raises the bare `IndexError` of Python list subscription, not the
`RuntimeError` decode-error kind that `Decode` documents and that every
caller catches. -/
theorem out_of_range_uid_index_error :
    Decode 10 arcOutOfRange = .error .indexError := rfl

/-- Archive whose `NSURL` record has a null base and a text relative. -/
def arcNullBaseURL : Value := .dict [
  ("$archiver", .str "NSKeyedArchiver"),
  ("$version", .int 100000),
  ("$objects", .array [.str "$null",
      .dict [("$class", .uid 2), ("NS.base", .uid 3), ("NS.relative", .uid 4)],
      .dict [("$classname", .str "NSURL"),
             ("$classes", .array [.str "NSURL", .str "NSObject"])],
      .null,
      .str "file.txt"]),
  ("$top", .dict [("root", .uid 1)])]

/-- C7 (counterexample): when `NS.base` resolves to null the decoder does
not fall back to the relative text; the falsy base fails the truthiness
check and decoding errors out. -/
theorem nsurl_null_base_errors_counterexample :
    Decode 20 arcNullBaseURL = .error (.runtimeError "Missing NSURL.NS.base.") := rfl

/-- Archive whose `NSDictionary` has a text-decoding key but a non-UID
value entry. -/
def arcDictNonUIDValue : Value := .dict [
  ("$archiver", .str "NSKeyedArchiver"),
  ("$version", .int 100000),
  ("$objects", .array [.str "$null",
      .dict [("$class", .uid 2), ("NS.keys", .array [.uid 3]),
             ("NS.objects", .array [.int 42])],
      .dict [("$classname", .str "NSDictionary"),
             ("$classes", .array [.str "NSDictionary", .str "NSObject"])],
      .str "alpha"]),
  ("$top", .dict [("root", .uid 1)])]

/-- C8 (counterexample): every decoded key is text (`"alpha"`), yet
decoding fails because the matching `NS.objects` entry is not a UID leaf
— failure is not characterised by non-text keys alone. -/
theorem nsdictionary_nonuid_value_counterexample :
    Decode 20 arcDictNonUIDValue =
      .error (.runtimeError "Missing UID in NS.objects[0] property of NSDictionary.alpha.") :=
  rfl

/-- Archive whose `$top` map carries the archive header literals as
plain (non-UID) entries. -/
def arcSmuggledHeader : Value := .dict [
  ("$archiver", .str "NSKeyedArchiver"),
  ("$version", .int 100000),
  ("$top", .dict [("$archiver", .str "NSKeyedArchiver"), ("$version", .int 100000)])]

/-- C9 (counterexample): non-UID `$top` values are copied verbatim, so a
top map carrying the envelope literals decodes without error to an
output on which `IsEncoded` is still true. -/
theorem decode_output_still_encoded_counterexample :
    Decode 20 arcSmuggledHeader =
      .ok (.dict [("$archiver", .str "NSKeyedArchiver"), ("$version", .int 100000)]) ∧
    IsEncoded (.dict [("$archiver", .str "NSKeyedArchiver"), ("$version", .int 100000)]) =
      true :=
  ⟨rfl, rfl⟩

/-- C1 (amended): the dispatcher selects the per-class handler solely by
scanning the `$classes` sequence in order and invoking the first name
present in the callback table; `$classname` is never looked up in the
table and only names the missing-callback error, which is raised exactly
when no `$classes` entry is in the table (a missing or empty `$classes`
is already an earlier error). -/
theorem dispatch_scans_classes_only (fuel : Nat) (es rs : List (String × Value))
    (pool : Value) (parents : List Int) (cp cname classes : Value) (cu : Int)
    (names : List Value)
    (h1 : dictGet es "$class" = some cp) (h2 : cp.truthy = true)
    (h3 : getPlistUID cp = some cu) (h4 : pyIndex pool cu = .ok (.dict rs))
    (h5 : (Value.dict rs).truthy = true)
    (h6 : dictGet rs "$classname" = some cname) (h7 : cname.truthy = true)
    (h8 : dictGet rs "$classes" = some classes) (h9 : classes.truthy = true)
    (h10 : pyIter classes = .ok names) :
    decodeNSObject (fuel + 1) (.dict es) pool parents =
      match selectCallback names with
      | .error e => .error e
      | .ok none => .error (.runtimeError ("Missing callback for class: " ++ msgStr cname))
      | .ok (some hnd) => applyCallback fuel hnd (.dict es) pool parents := by
  simp only [decodeNSObject, h1, Option.getD_some, h2, h3, h4, h5, h6, h7, h8, h9, h10,
    Bool.not_true, Bool.false_eq_true, if_false]
  cases hsel : selectCallback names with
  | error e => rfl
  | ok o =>
      cases o with
      | none => rfl
      | some hnd => cases hnd <;> rfl

/-- Witness for `dispatch_scans_classes_only`: a record whose descriptor
names the unregistered class `Whatever` but lists `NSString` among its
ancestors dispatches to the string handler. -/
theorem dispatch_scans_classes_only_witness :
    decodeNSObject 4 (.dict [("$class", .uid 1), ("NS.string", .str "x")])
        (.array [.null, .dict [("$classname", .str "Whatever"),
          ("$classes", .array [.str "NSString"])]]) [] =
      applyCallback 3 .nsString (.dict [("$class", .uid 1), ("NS.string", .str "x")])
        (.array [.null, .dict [("$classname", .str "Whatever"),
          ("$classes", .array [.str "NSString"])]]) [] := by
  have h := dispatch_scans_classes_only 3
    [("$class", .uid 1), ("NS.string", .str "x")]
    [("$classname", .str "Whatever"), ("$classes", .array [.str "NSString"])]
    (.array [.null, .dict [("$classname", .str "Whatever"),
      ("$classes", .array [.str "NSString"])]]) []
    (.uid 1) (.str "Whatever") (.array [.str "NSString"]) 1 [.str "NSString"]
    rfl rfl rfl rfl rfl rfl rfl rfl rfl rfl
  exact h

/-- C2 (amended): for each `(name, v)` entry of the top map, a non-UID
`v` is stored verbatim, while a UID `v` with index `u` and truthy pool
entry is resolved by the record decoder `decodeNSObject` — not the
general dispatcher — with ancestors `[u]`; a pool entry without the
record shape (for example a plain text string) therefore makes decoding
fail instead of decoding to the plain value. -/
theorem top_entries_use_record_decoder (fuel : Nat) (name : String) (vp : Value)
    (rest : List (String × Value)) (pool : Value) (acc : List (String × Value)) :
    (getPlistUID vp = none →
      decodeTopLoop fuel ((name, vp) :: rest) pool acc =
        decodeTopLoop fuel rest pool (dictSet acc name vp)) ∧
    (∀ u referenced, getPlistUID vp = some u → pyIndex pool u = .ok referenced →
      referenced.truthy = true →
      decodeTopLoop fuel ((name, vp) :: rest) pool acc =
        match decodeNSObject fuel referenced pool [u] with
        | .error e => .error e
        | .ok (w, _) => decodeTopLoop fuel rest pool (dictSet acc name w)) := by
  constructor
  · intro h
    simp only [decodeTopLoop, h]
  · intro u referenced h1 h2 h3
    simp only [decodeTopLoop, h1, h2, h3, Bool.not_true, Bool.false_eq_true, if_false]

/-- Witness for `top_entries_use_record_decoder`: the verbatim branch on
a plain integer entry and the record-decoder branch on a UID entry. -/
theorem top_entries_use_record_decoder_witness :
    (decodeTopLoop 9 [("a", .int 7)] (.array [.null]) [] =
      decodeTopLoop 9 [] (.array [.null]) (dictSet [] "a" (.int 7))) ∧
    (decodeTopLoop 9 [("b", .uid 0)] (.array [.int 5]) [] =
      match decodeNSObject 9 (.int 5) (.array [.int 5]) [0] with
      | .error e => .error e
      | .ok (w, _) => decodeTopLoop 9 [] (.array [.int 5]) (dictSet [] "b" w)) :=
  ⟨(top_entries_use_record_decoder 9 "a" (.int 7) [] (.array [.null]) []).1 rfl,
   (top_entries_use_record_decoder 9 "b" (.uid 0) [] (.array [.int 5]) []).2
     0 (.int 5) rfl rfl rfl⟩

/-- C3 (amended): the dispatcher returns ordered sequences verbatim,
without decoding their elements, and returns mappings lacking `$class`
verbatim, without decoding their values; UID leaves nested inside such
plain sequences and mappings are therefore carried through, not
resolved. -/
theorem plain_values_returned_verbatim (fuel : Nat) (xs : List Value)
    (es : List (String × Value)) (pool : Value) (parents : List Int)
    (h : dictHasKey es "$class" = false) :
    decodeObject (fuel + 1) (.array xs) pool parents = .ok (.array xs, parents) ∧
    decodeObject (fuel + 1) (.dict es) pool parents = .ok (.dict es, parents) := by
  constructor
  · simp [decodeObject]
  · simp [decodeObject, h]

/-- Witness for `plain_values_returned_verbatim`: a sequence holding a
UID leaf and a `$class`-less mapping holding one pass through unchanged. -/
theorem plain_values_returned_verbatim_witness :
    decodeObject 6 (.array [.uid 0]) (.array [.str "x"]) [] =
      .ok (.array [.uid 0], []) ∧
    decodeObject 6 (.dict [("k", .uid 0)]) (.array [.str "x"]) [] =
      .ok (.dict [("k", .uid 0)], []) :=
  plain_values_returned_verbatim 5 [.uid 0] [("k", .uid 0)] (.array [.str "x"]) [] rfl

/-- Assignment of a different key preserves key-absence. -/
theorem dictHasKey_dictSet_ne (d : List (String × Value)) (k k1 : String) (v : Value)
    (h : k1 ≠ k) : dictHasKey (dictSet d k v) k1 = dictHasKey d k1 := by
  simp [dictHasKey, dictGet_dictSet_ne d k k1 v h]

/-- The composite loop never introduces a `$class` key: the key is
skipped by the loop, and every inserted key is therefore distinct from
it. -/
theorem compositeLoop_no_class_key (fuel : Nat) :
    ∀ rest es pool parents acc out parents1,
      compositeLoop fuel rest es pool parents acc = .ok (out, parents1) →
      dictHasKey acc "$class" = false → dictHasKey out "$class" = false := by
  induction fuel with
  | zero =>
      intro rest es pool parents acc out parents1 h
      simp [compositeLoop] at h
  | succ fuel ih =>
      intro rest es pool parents acc out parents1 h hacc
      match rest with
      | [] =>
          simp only [compositeLoop, Except.ok.injEq, Prod.mk.injEq] at h
          rw [← h.1]
          exact hacc
      | (key, kv) :: rest =>
          simp only [compositeLoop] at h
          split at h
          · exact ih _ _ _ _ _ _ _ h hacc
          · rename_i hkey
            split at h
            · split at h
              · simp at h
              · exact ih _ _ _ _ _ _ _ h
                  (by rw [dictHasKey_dictSet_ne _ _ _ _ (Ne.symm hkey)]; exact hacc)
            · split at h
              · exact ih _ _ _ _ _ _ _ h hacc
              · split at h
                · simp at h
                · split at h
                  · simp at h
                  · split at h
                    · simp at h
                    · exact ih _ _ _ _ _ _ _ h
                        (by rw [dictHasKey_dictSet_ne _ _ _ _ (Ne.symm hkey)]; exact hacc)

/-- C4 (amended): a mapping built by the generic composite handler never
carries the key `$class` at its own top level; this is the only
structural-key stripping the decoder performs — as the counterexample
shows, other reserved key names (and `$class` inside verbatim-returned
plain mappings) can survive in decoded output. -/
theorem composite_output_strips_class (fuel : Nat) (v pool : Value) (parents : List Int)
    (w : Value) (parents1 : List Int)
    (h : decodeCompositeObject fuel v pool parents = .ok (w, parents1)) :
    ∃ out, w = .dict out ∧ dictHasKey out "$class" = false := by
  match fuel with
  | 0 => simp [decodeCompositeObject] at h
  | fuel + 1 =>
      simp only [decodeCompositeObject] at h
      split at h
      · split at h
        · simp at h
        · rename_i out parentsA heq
          simp only [Except.ok.injEq, Prod.mk.injEq] at h
          exact ⟨out, h.1.symm, compositeLoop_no_class_key fuel _ _ _ _ _ _ _ heq rfl⟩
      · split at h
        · simp at h
        · split at h
          · simp only [Except.ok.injEq, Prod.mk.injEq] at h
            exact ⟨[], h.1.symm, rfl⟩
          · simp at h

/-- Witness for `composite_output_strips_class`: a record with a
`$class` entry and one user key decodes to a mapping without `$class`. -/
theorem composite_output_strips_class_witness :
    ∃ out, Value.dict [("a", Value.int 1)] = .dict out ∧
      dictHasKey out "$class" = false :=
  composite_output_strips_class 5 (.dict [("$class", .uid 0), ("a", .int 1)])
    (.array [.null]) [] (.dict [("a", .int 1)]) [] rfl

/-- C5: when a structural-field UID is already on the ancestors stack,
`NSArray`/`NSSet` elements (`NS.objects[i]`) and `NSDictionary` value
entries (`NS.objects[i]`) are dropped and the loop continues with the
remaining elements, whereas an `NSHashTable.$1` UID on the stack is a
hard decode error. -/
theorem structural_cycle_policy (fuel : Nat) (cn : String) (pool : Value)
    (parents : List Int) :
    (∀ (item : Value) (rest : List Value) (idx : Nat) (acc : List Value) (u : Int),
      getPlistUID item = some u → u ∈ parents →
      arrayLoop (fuel + 1) cn (item :: rest) idx pool parents acc =
        arrayLoop fuel cn rest (idx + 1) pool parents acc) ∧
    (∀ (keysProp obj : Value) (rest : List Value) (idx : Nat)
        (acc : List (String × Value)) (kp : Value) (ku : Int) (kref : Value)
        (ks : String) (q : List Int) (vu : Int),
      pyIndex keysProp (idx : Int) = .ok kp →
      getPlistUID kp = some ku →
      pyIndex pool ku = .ok kref →
      decodeObject fuel kref pool (parents ++ [ku]) = .ok (.str ks, q) →
      pyPop q = .ok parents →
      (Value.str ks).truthy = true →
      getPlistUID obj = some vu → vu ∈ parents →
      dictLoop (fuel + 1) cn keysProp (obj :: rest) idx pool parents acc =
        dictLoop fuel cn keysProp rest (idx + 1) pool parents acc) ∧
    (∀ (es : List (String × Value)) (cname vp : Value) (u : Int),
      getClassName (.dict es) pool = .ok cname →
      dictGet es "$1" = some vp → getPlistUID vp = some u → u ∈ parents →
      decodeNSHashTable (fuel + 1) (.dict es) pool parents =
        .error (.runtimeError (msgStr cname ++ ".$1 wth UID in parent objects"))) := by
  refine ⟨?_, ?_, ?_⟩
  · intro item rest idx acc u h1 h2
    simp [arrayLoop, h1, h2]
  · intro keysProp obj rest idx acc kp ku kref ks q vu h1 h2 h3 h4 h5 h6 h7 h8
    simp [dictLoop, h1, h2, h3, h4, h5, h6, h7, h8]
  · intro es cname vp u h1 h2 h3 h4
    simp [decodeNSHashTable, dictHasKey, h1, h2, h3, h4]

/-- Witness for `structural_cycle_policy`: concrete skips for the array
and dictionary loops and the hard error for the hash-table field. -/
theorem structural_cycle_policy_witness :
    (arrayLoop 4 "C" [.uid 1] 0 (.array [.int 9, .int 8, .str "k"]) [1] [] =
      arrayLoop 3 "C" [] 1 (.array [.int 9, .int 8, .str "k"]) [1] []) ∧
    (dictLoop 4 "C" (.array [.uid 2]) [.uid 1] 0 (.array [.int 9, .int 8, .str "k"])
        [1] [] =
      dictLoop 3 "C" (.array [.uid 2]) [] 1 (.array [.int 9, .int 8, .str "k"]) [1] []) ∧
    (decodeNSHashTable 4
        (.dict [("$class", .uid 0), ("$1", .uid 1)])
        (.array [.dict [("$classname", .str "NSHashTable")], .int 7]) [1] =
      .error (.runtimeError "NSHashTable.$1 wth UID in parent objects")) :=
  ⟨(structural_cycle_policy 3 "C" (.array [.int 9, .int 8, .str "k"]) [1]).1
      (.uid 1) [] 0 [] 1 rfl (by decide),
   (structural_cycle_policy 3 "C" (.array [.int 9, .int 8, .str "k"]) [1]).2.1
      (.array [.uid 2]) (.uid 1) [] 0 [] (.uid 2) 2 (.str "k") "k" [1, 2] 1
      rfl rfl rfl rfl rfl rfl rfl (by decide),
   (structural_cycle_policy 3 "C"
      (.array [.dict [("$classname", .str "NSHashTable")], .int 7]) [1]).2.2
      [("$class", .uid 0), ("$1", .uid 1)] (.str "NSHashTable") (.uid 1) 1
      rfl rfl rfl (by decide)⟩

/-- C7 (amended): when `NS.base` and `NS.relative` resolve to truthy
texts `b` and `r`, the decoded `NSURL` equals `r` for the sentinel base
text and `b ++ "/" ++ r` otherwise; a base resolving to null is not a
fallback to `r` but a decode error, because null fails the truthiness
check on the referenced pool entry. -/
theorem nsurl_composition_of_texts (es : List (String × Value)) (pool : Value)
    (bp rp : Value) (bu ru : Int) (r : String)
    (hbp : dictGet es "NS.base" = some bp) (hrp : dictGet es "NS.relative" = some rp)
    (hbu : getPlistUID bp = some bu) (hru : getPlistUID rp = some ru)
    (hr : pyIndex pool ru = .ok (.str r)) (hrt : (Value.str r).truthy = true) :
    (∀ b : String, pyIndex pool bu = .ok (.str b) → (Value.str b).truthy = true →
      decodeNSURL (.dict es) pool =
        .ok (if b = "$null" then Value.str r else .str (b ++ "/" ++ r))) ∧
    (pyIndex pool bu = .ok .null →
      decodeNSURL (.dict es) pool = .error (.runtimeError "Missing NSURL.NS.base.")) := by
  constructor
  · intro b hb hbt
    by_cases hnull : b = "$null"
    · subst hnull
      simp [decodeNSURL, dictHasKey, hbp, hrp, hbu, hru, hr, hrt, hb, hbt]
    · simp [decodeNSURL, dictHasKey, hbp, hrp, hbu, hru, hr, hrt, hb, hbt, hnull]
  · intro hb
    simp [decodeNSURL, dictHasKey, hbp, hrp, hbu, hru, hb, Value.truthy]

/-- Witness for `nsurl_composition_of_texts`: a sentinel base yields the
relative text and a null base yields the error (two pools sharing the
same record shape). -/
theorem nsurl_composition_of_texts_witness :
    (decodeNSURL (.dict [("NS.base", .uid 1), ("NS.relative", .uid 2)])
        (.array [.str "$null", .str "https://x.test", .str "file.txt"]) =
      .ok (if "https://x.test" = "$null" then Value.str "file.txt"
        else .str ("https://x.test" ++ "/" ++ "file.txt"))) ∧
    (decodeNSURL (.dict [("NS.base", .uid 1), ("NS.relative", .uid 2)])
        (.array [.str "$null", .null, .str "file.txt"]) =
      .error (.runtimeError "Missing NSURL.NS.base.")) :=
  ⟨(nsurl_composition_of_texts [("NS.base", .uid 1), ("NS.relative", .uid 2)]
      (.array [.str "$null", .str "https://x.test", .str "file.txt"])
      (.uid 1) (.uid 2) 1 2 "file.txt" rfl rfl rfl rfl rfl rfl).1
      "https://x.test" rfl rfl,
   (nsurl_composition_of_texts [("NS.base", .uid 1), ("NS.relative", .uid 2)]
      (.array [.str "$null", .null, .str "file.txt"])
      (.uid 1) (.uid 2) 1 2 "file.txt" rfl rfl rfl rfl rfl rfl).2 rfl⟩

/-- C8 (amended): within an `NSDictionary` whose `NS.keys`/`NS.objects`
lengths match, a decoded key that is truthy but not text is an error (the
kept part of the claim), but text keys do not guarantee success: each key
and each value entry must itself be a UID leaf (and a falsy decoded key
also errors).  When a step is well-formed — key UID decoding to truthy
text, value UID off the ancestors stack — the pair is added with
assignment semantics, so a duplicate key takes the value of its last
occurrence. -/
theorem nsdictionary_loop_behavior (fuel : Nat) (cn : String) (keysProp : Value)
    (obj : Value) (rest : List Value) (idx : Nat) (pool : Value) (parents : List Int)
    (acc : List (String × Value)) (kp : Value) (ku : Int) (kref : Value) :
    (∀ (nsKey : Value) (q : List Int),
      pyIndex keysProp (idx : Int) = .ok kp → getPlistUID kp = some ku →
      pyIndex pool ku = .ok kref →
      decodeObject fuel kref pool (parents ++ [ku]) = .ok (nsKey, q) →
      pyPop q = .ok parents → nsKey.truthy = true → nsKey.isStr = false →
      dictLoop (fuel + 1) cn keysProp (obj :: rest) idx pool parents acc =
        .error (.runtimeError
          ("Unsupported type in " ++ cn ++ ".NS.keys[" ++ toString idx ++ "]."))) ∧
    (∀ (ks : String) (q : List Int) (vu : Int) (vref w : Value) (q2 : List Int),
      pyIndex keysProp (idx : Int) = .ok kp → getPlistUID kp = some ku →
      pyIndex pool ku = .ok kref →
      decodeObject fuel kref pool (parents ++ [ku]) = .ok (.str ks, q) →
      pyPop q = .ok parents → (Value.str ks).truthy = true →
      getPlistUID obj = some vu → vu ∉ parents →
      pyIndex pool vu = .ok vref →
      decodeObject fuel vref pool (parents ++ [vu]) = .ok (w, q2) →
      pyPop q2 = .ok parents →
      dictLoop (fuel + 1) cn keysProp (obj :: rest) idx pool parents acc =
        dictLoop fuel cn keysProp rest (idx + 1) pool parents (dictSet acc ks w)) ∧
    (∀ (d : List (String × Value)) (ks : String) (w : Value),
      dictGet (dictSet d ks w) ks = some w) := by
  refine ⟨?_, ?_, ?_⟩
  · intro nsKey q h1 h2 h3 h4 h5 h6 h7
    cases nsKey <;>
      simp_all [dictLoop, Value.isStr]
  · intro ks q vu vref w q2 h1 h2 h3 h4 h5 h6 h7 h8 h9 h10 h11
    simp [dictLoop, h1, h2, h3, h4, h5, h6, h7, h8, h9, h10, h11]
  · intro d ks w
    exact dictGet_dictSet_self d ks w

/-- Witness for `nsdictionary_loop_behavior`: an integer-decoding key
errors, a text-decoding key with a fresh value UID steps to the next
pair with the assignment recorded, and assignment lookup returns the
assigned value. -/
theorem nsdictionary_loop_behavior_witness :
    (dictLoop 4 "C" (.array [.uid 0]) [.uid 1] 0 (.array [.int 3, .int 42]) [] [] =
      .error (.runtimeError "Unsupported type in C.NS.keys[0].")) ∧
    (dictLoop 4 "C" (.array [.uid 0]) [.uid 1] 0 (.array [.str "k", .int 42]) [] [] =
      dictLoop 3 "C" (.array [.uid 0]) [] 1 (.array [.str "k", .int 42]) []
        (dictSet [] "k" (.int 42))) ∧
    (dictGet (dictSet [] "k" (.int 42)) "k" = some (.int 42)) :=
  ⟨(nsdictionary_loop_behavior 3 "C" (.array [.uid 0]) (.uid 1) [] 0
      (.array [.int 3, .int 42]) [] [] (.uid 0) 0 (.int 3)).1
      (.int 3) [0] rfl rfl rfl rfl rfl rfl rfl,
   (nsdictionary_loop_behavior 3 "C" (.array [.uid 0]) (.uid 1) [] 0
      (.array [.str "k", .int 42]) [] [] (.uid 0) 0 (.str "k")).2.1
      "k" [0] 1 (.int 42) (.int 42) [1] rfl rfl rfl rfl rfl rfl rfl (by decide) rfl rfl rfl,
   (nsdictionary_loop_behavior 3 "C" (.array [.uid 0]) (.uid 1) [] 0
      (.array [.str "k", .int 42]) [] [] (.uid 0) 0 (.str "k")).2.2
      [] "k" (.int 42)⟩

/-- Whether the raw `$top` value of a root mapping has no entry with the
given key (vacuously true when `$top` is absent or not a mapping). -/
def topKeyAbsent (root : Value) (k : String) : Bool :=
  match root with
  | .dict es =>
      match (dictGet es "$top").getD .null with
      | .dict tes => tes.all fun e => !(e.1 == k)
      | _ => true
  | _ => true

/-- The top-map loop introduces no key that is neither in the
accumulator nor among the processed entry names. -/
theorem decodeTopLoop_get_none (fuel : Nat) (k : String) (pool : Value) :
    ∀ (tes acc : List (String × Value)) (out : List (String × Value)),
      decodeTopLoop fuel tes pool acc = .ok out →
      dictGet acc k = none → (tes.all fun e => !(e.1 == k)) = true →
      dictGet out k = none := by
  intro tes
  induction tes with
  | nil =>
      intro acc out h h1 _
      simp only [decodeTopLoop, Except.ok.injEq] at h
      rw [← h]
      exact h1
  | cons e rest ih =>
      intro acc out h h1 h2
      obtain ⟨name, vp⟩ := e
      simp only [List.all_cons, Bool.and_eq_true] at h2
      have hk : name ≠ k := by simpa using h2.1
      simp only [decodeTopLoop] at h
      split at h
      · exact ih _ _ h (by rw [dictGet_dictSet_ne _ _ _ _ (Ne.symm hk)]; exact h1) h2.2
      · split at h
        · simp at h
        · split at h
          · simp at h
          · split at h
            · simp at h
            · exact ih _ _ h
                (by rw [dictGet_dictSet_ne _ _ _ _ (Ne.symm hk)]; exact h1) h2.2

/-- C9 (amended): `IsEncoded` applied to a decoded archive is false for
every archive whose `$top` map has no `$archiver` entry; it is not false
universally, because non-UID `$top` values are copied verbatim into the
output and can reconstruct the envelope header. -/
theorem decode_output_not_encoded_without_smuggled_header (fuel : Nat) (root out : Value)
    (h : Decode fuel root = .ok out) (ha : topKeyAbsent root "$archiver" = true) :
    IsEncoded out = false := by
  match root with
  | .dict es =>
      simp only [Decode] at h
      split at h
      · simp at h
      · split at h
        · rename_i tes htop
          split at h
          · simp at h
          · rename_i out0 hloop
            simp only [Except.ok.injEq] at h
            have hnone : dictGet out0 "$archiver" = none := by
              refine decodeTopLoop_get_none fuel "$archiver" _ tes [] out0 hloop rfl ?_
              simp only [topKeyAbsent] at ha
              split at htop
              · rename_i htr
                rw [htop] at ha
                exact ha
              · simp only [Except.ok.injEq, Value.dict.injEq] at htop
                rw [← htop]
                rfl
            rw [← h]
            simp [IsEncoded, hnone, pyEqStr]
        · simp at h
  | .null | .bool _ | .int _ | .real _ | .str _ | .data _ | .uid _ | .array _ =>
      simp [Decode] at h

/-- Witness for `decode_output_not_encoded_without_smuggled_header`: an
archive with an empty top map decodes to a mapping that `IsEncoded`
rejects. -/
theorem decode_output_not_encoded_witness : IsEncoded (.dict []) = false :=
  decode_output_not_encoded_without_smuggled_header 9
    (.dict [("$archiver", .str "NSKeyedArchiver"), ("$version", .int 100000),
      ("$objects", .array [.str "$null"]), ("$top", .dict [])])
    (.dict []) rfl rfl

/-- Witness for `decode_preserves_parent_objects`: a record decode that
pushes and pops the UID of a user field returns the ancestors stack it
was given. -/
theorem decode_preserves_parent_objects_witness : ([1] : List Int) = [1] :=
  (decode_preserves_parent_objects 9).2.1
    (.dict [("$class", .uid 2), ("r", .uid 0)])
    (.array [.str "$null",
      .dict [("$class", .uid 2), ("r", .uid 0)],
      .dict [("$classname", .str "MyClass"), ("$classes", .array [.str "NSObject"])]])
    [1] (.dict [("r", .null)]) [1] rfl
